import Mathlib

/-!
Verification of the donation lifecycle engine of the filasolidaria backend.

The engine state and every operation are shallow embeddings of
`src/backend/src/modules/donation/donation.service.ts` together with the
repository methods it calls (`donation.repository.ts`,
`candidacy.repository.ts` and the donation-progress repository):
a single donation, its candidacy list (ordered by creation time, newest
appended at the end), its optional progress record and its edit history.
Each service method is a function `EngineState → ... → Except ErrKind EngineState`;
throwing an `AppError` is modelled as returning `.error kind`, which leaves
the state unchanged (no writes happen before a throw in any of the embedded
methods, matching the source order of checks and writes).
-/

namespace FilaSolidaria

instance {ε α : Type} [DecidableEq ε] [DecidableEq α] :
    DecidableEq (Except ε α) := fun a b =>
  match a, b with
  | .error e, .error f => decidable_of_iff (e = f) (by simp)
  | .error _, .ok _ => isFalse (by simp)
  | .ok _, .error _ => isFalse (by simp)
  | .ok x, .ok y => decidable_of_iff (x = y) (by simp)

/-- The donation status enum of the Prisma schema. -/
inductive Status where
  | OPEN
  | IN_PROGRESS
  | PICKED_UP
  | COMPLETED
deriving DecidableEq

/-- The four recoverable error kinds of `shared/errors/AppError.ts` that the
donation module can surface (`NotFoundError`, `ForbiddenError`,
`ValidationError`, `ConflictError`). -/
inductive ErrKind where
  | NotFound
  | Forbidden
  | ValidationFailed
  | Conflict
deriving DecidableEq

/-- The updatable donation fields of `updateDonationSchema`
(donation.schema.ts): all optional strings in an update request. -/
inductive Field where
  | title
  | description
  | pickupType
  | category
  | postalCode
  | street
  | locationNumber
  | neighborhood
  | city
  | state
deriving DecidableEq

/-- The fixed key set iterated by the diff (the own enumerable keys an
update object can carry). -/
def Field.all : List Field :=
  [.title, .description, .pickupType, .category, .postalCode, .street,
   .locationNumber, .neighborhood, .city, .state]

/-- The editable part of a stored donation record. All values are modelled
as strings (the source compares them with `!==`). -/
structure DonationFields where
  title : String
  description : String
  pickupType : String
  category : String
  postalCode : String
  street : String
  locationNumber : String
  neighborhood : String
  city : String
  state : String
deriving DecidableEq

/-- The `UpdateDonationData` partial: a key is present iff the option is
`some`. -/
structure UpdateDonationData where
  title : Option String := none
  description : Option String := none
  pickupType : Option String := none
  category : Option String := none
  postalCode : Option String := none
  street : Option String := none
  locationNumber : Option String := none
  neighborhood : Option String := none
  city : Option String := none
  state : Option String := none
deriving DecidableEq

def DonationFields.get (f : DonationFields) : Field → String
  | .title => f.title
  | .description => f.description
  | .pickupType => f.pickupType
  | .category => f.category
  | .postalCode => f.postalCode
  | .street => f.street
  | .locationNumber => f.locationNumber
  | .neighborhood => f.neighborhood
  | .city => f.city
  | .state => f.state

def UpdateDonationData.get (u : UpdateDonationData) : Field → Option String
  | .title => u.title
  | .description => u.description
  | .pickupType => u.pickupType
  | .category => u.category
  | .postalCode => u.postalCode
  | .street => u.street
  | .locationNumber => u.locationNumber
  | .neighborhood => u.neighborhood
  | .city => u.city
  | .state => u.state

/-- Prisma `donation.update(id, data)`: only the provided keys change. -/
def DonationFields.applyUpdate (f : DonationFields) (u : UpdateDonationData) :
    DonationFields where
  title := u.title.getD f.title
  description := u.description.getD f.description
  pickupType := u.pickupType.getD f.pickupType
  category := u.category.getD f.category
  postalCode := u.postalCode.getD f.postalCode
  street := u.street.getD f.street
  locationNumber := u.locationNumber.getD f.locationNumber
  neighborhood := u.neighborhood.getD f.neighborhood
  city := u.city.getD f.city
  state := u.state.getD f.state

/-- `getObjectDifferences` from `utils/helpers.ts`: for every key of the
partial whose value is defined and differs from the old object, record
`(key, oldValue, newValue)`.  The source iterates the keys present on the
new object; iterating the fixed key list and skipping `none` entries is the
same set of keys. -/
def getObjectDifferences (oldObj : DonationFields) (newObj : UpdateDonationData) :
    List (Field × String × String) :=
  Field.all.filterMap fun k =>
    match newObj.get k with
    | some v => if oldObj.get k ≠ v then some (k, oldObj.get k, v) else none
    | none => none

/-- The `DonationProgress` record: seven checkbox flags, all `false` on
creation (`progressRepository.create`). -/
structure Progress where
  pickupConfirmedByDonor : Bool := false
  pickupConfirmedByReceiver : Bool := false
  completionConfirmedByDonor : Bool := false
  completionConfirmedByReceiver : Bool := false
  returnSignaledByReceiver : Bool := false
  returnConfirmedByDonor : Bool := false
  returnConfirmedByReceiver : Bool := false
deriving DecidableEq

/-- The update shape accepted by `DonationService.updateProgress` (and by
`updateProgressSchema`): six optional booleans.  `returnSignaledByReceiver`
is absent from this type, exactly as in the source. -/
structure ProgressUpdates where
  pickupConfirmedByDonor : Option Bool := none
  pickupConfirmedByReceiver : Option Bool := none
  completionConfirmedByDonor : Option Bool := none
  completionConfirmedByReceiver : Option Bool := none
  returnConfirmedByDonor : Option Bool := none
  returnConfirmedByReceiver : Option Bool := none
deriving DecidableEq

/-- `progressRepository.update`: only the provided flags change.  The
update shape cannot mention `returnSignaledByReceiver`, so that flag is
always preserved. -/
def Progress.applyUpdates (p : Progress) (u : ProgressUpdates) : Progress where
  pickupConfirmedByDonor := u.pickupConfirmedByDonor.getD p.pickupConfirmedByDonor
  pickupConfirmedByReceiver := u.pickupConfirmedByReceiver.getD p.pickupConfirmedByReceiver
  completionConfirmedByDonor := u.completionConfirmedByDonor.getD p.completionConfirmedByDonor
  completionConfirmedByReceiver := u.completionConfirmedByReceiver.getD p.completionConfirmedByReceiver
  returnSignaledByReceiver := p.returnSignaledByReceiver
  returnConfirmedByDonor := u.returnConfirmedByDonor.getD p.returnConfirmedByDonor
  returnConfirmedByReceiver := u.returnConfirmedByReceiver.getD p.returnConfirmedByReceiver

/-- A stored donation.  User ids are modelled as naturals. -/
structure Donation where
  donorId : Nat
  receiverId : Option Nat
  status : Status
  returnReason : Option String
  flds : DonationFields
deriving DecidableEq

/-- `donationRepository.setReceiver`: associates the receiver and moves the
status to IN_PROGRESS. -/
def Donation.setReceiver (d : Donation) (receiverId : Nat) : Donation :=
  { d with receiverId := some receiverId, status := .IN_PROGRESS }

/-- `donationRepository.removeReceiver`: clears the receiver, resets the
status to OPEN and clears the return reason. -/
def Donation.removeReceiver (d : Donation) : Donation :=
  { d with receiverId := none, status := .OPEN, returnReason := none }

/-- One edit-history entry is the diff map written by
`saveDonationEditHistory`. -/
abbrev HistoryEntry := List (Field × String × String)

/-- The persistent state around one donation: the donation row, its
candidacies (applicant ids, creation order, oldest first), its optional
progress record, and its edit history (appended in order). -/
structure EngineState where
  donation : Donation
  candidacies : List Nat
  progress : Option Progress
  history : List HistoryEntry
deriving DecidableEq

/-- `DonationService.createDonation` / `donationRepository.create`: a fresh
donation with status OPEN, no receiver, no return reason, no candidacies,
no progress and empty history. -/
def createDonation (donorId : Nat) (f : DonationFields) : EngineState where
  donation := { donorId, receiverId := none, status := .OPEN,
                returnReason := none, flds := f }
  candidacies := []
  progress := none
  history := []

/-- `DonationService.applyForDonation`.  The duplicate-candidacy check
throws `ValidationError` in the source ("Você já se candidatou para esta
doação"). -/
def applyForDonation (s : EngineState) (userId : Nat) :
    Except ErrKind EngineState :=
  if s.donation.donorId = userId then .error .ValidationFailed
  else if s.donation.status ≠ .OPEN then .error .ValidationFailed
  else if userId ∈ s.candidacies then .error .ValidationFailed
  else .ok { s with candidacies := s.candidacies ++ [userId] }

/-- `DonationService.withdrawCandidacy`. -/
def withdrawCandidacy (s : EngineState) (userId : Nat) :
    Except ErrKind EngineState :=
  if userId ∉ s.candidacies then .error .NotFound
  else if s.donation.status = .OPEN then
    .ok { s with candidacies := s.candidacies.erase userId }
  else .error .ValidationFailed

/-- `DonationService.getDonationCandidates`: donor-only listing,
creation-order ascending (`candidacyRepository.findByDonation`). -/
def getDonationCandidates (s : EngineState) (requestingUserId : Nat) :
    Except ErrKind (List Nat) :=
  if s.donation.donorId ≠ requestingUserId then .error .Forbidden
  else .ok s.candidacies

/-- `DonationService.chooseReceiver` (source argument order:
donationId, receiverId, donorId): set the receiver and status IN_PROGRESS
(`setReceiver`), create the all-false progress record, delete every
candidacy of the donation. -/
def chooseReceiver (s : EngineState) (receiverId donorId : Nat) :
    Except ErrKind EngineState :=
  if s.donation.donorId ≠ donorId then .error .Forbidden
  else if s.donation.status ≠ .OPEN then .error .ValidationFailed
  else if receiverId ∉ s.candidacies then .error .ValidationFailed
  else .ok { s with
    donation := s.donation.setReceiver receiverId,
    progress := some {},
    candidacies := [] }

/-- `DonationService.cancelReceiving`: `removeReceiver` clears the
receiver, resets status to OPEN and clears the return reason; the progress
record is deleted. -/
def cancelReceiving (s : EngineState) (userId : Nat) :
    Except ErrKind EngineState :=
  if s.donation.receiverId ≠ some userId then .error .Forbidden
  else if s.donation.status ≠ .IN_PROGRESS then .error .ValidationFailed
  else .ok { s with
    donation := s.donation.removeReceiver,
    progress := none }

/-- `DonationService.updateProgress`.  The status auto-transitions reuse the
donation row read at the start of the call (IN_PROGRESS → PICKED_UP when
both pickup flags hold, anything but COMPLETED → COMPLETED when both
completion flags hold, the latter write overwriting the former). -/
def updateProgress (s : EngineState) (userId : Nat) (updates : ProgressUpdates) :
    Except ErrKind EngineState :=
  match s.donation.receiverId with
  | none => .error .ValidationFailed
  | some receiverId =>
    match s.progress with
    | none => .error .ValidationFailed
    | some progress =>
      if ¬ s.donation.donorId = userId ∧ ¬ receiverId = userId then
        .error .Forbidden
      else if s.donation.donorId = userId ∧
          (updates.pickupConfirmedByReceiver.isSome ∨
           updates.completionConfirmedByReceiver.isSome ∨
           updates.returnConfirmedByReceiver.isSome) then
        .error .Forbidden
      else if receiverId = userId ∧
          (updates.pickupConfirmedByDonor.isSome ∨
           updates.completionConfirmedByDonor.isSome ∨
           updates.returnConfirmedByDonor.isSome) then
        .error .Forbidden
      else
        let pickupConfirmed :=
          (updates.pickupConfirmedByDonor.getD progress.pickupConfirmedByDonor) &&
          (updates.pickupConfirmedByReceiver.getD progress.pickupConfirmedByReceiver)
        if (updates.completionConfirmedByDonor.getD false ||
            updates.completionConfirmedByReceiver.getD false) && ¬ pickupConfirmed then
          .error .ValidationFailed
        else if updates.returnConfirmedByReceiver.getD false && ¬ pickupConfirmed then
          .error .ValidationFailed
        else
          let updatedProgress := progress.applyUpdates updates
          let status1 :=
            if updatedProgress.pickupConfirmedByDonor ∧
               updatedProgress.pickupConfirmedByReceiver ∧
               s.donation.status = .IN_PROGRESS then Status.PICKED_UP
            else s.donation.status
          let status2 :=
            if updatedProgress.completionConfirmedByDonor ∧
               updatedProgress.completionConfirmedByReceiver ∧
               s.donation.status ≠ .COMPLETED then Status.COMPLETED
            else status1
          .ok { s with
            donation := { s.donation with status := status2 },
            progress := some updatedProgress }

/-- `DonationService.signalReturn`: receiver only, allowed only once both
pickup flags hold (`canSignalReturn`); sets the signal flag and stores the
reason on the donation. -/
def signalReturn (s : EngineState) (userId : Nat) (reason : String) :
    Except ErrKind EngineState :=
  if s.donation.receiverId ≠ some userId then .error .Forbidden
  else
    match s.progress with
    | none => .error .ValidationFailed
    | some progress =>
      if ¬ (progress.pickupConfirmedByDonor ∧ progress.pickupConfirmedByReceiver) then
        .error .ValidationFailed
      else .ok { s with
        progress := some { progress with returnSignaledByReceiver := true },
        donation := { s.donation with returnReason := some reason } }

/-- The tail of `DonationService.confirmReturn` after the caller's flag has
been written: `isReturnCompleted` re-reads the updated record, and when the
signal and both confirmations hold, `removeReceiver` reopens the donation
and the progress record is deleted. -/
def finishReturn (s : EngineState) (updated : Progress) :
    Except ErrKind EngineState :=
  if updated.returnSignaledByReceiver ∧ updated.returnConfirmedByDonor ∧
     updated.returnConfirmedByReceiver then
    .ok { s with donation := s.donation.removeReceiver, progress := none }
  else .ok { s with progress := some updated }

/-- `DonationService.confirmReturn`: donor or receiver; return must be
signaled; sets the caller's confirmation flag (the donor branch is taken
when the caller is the donor, otherwise the receiver flag is written),
then completes the return when `isReturnCompleted` holds. -/
def confirmReturn (s : EngineState) (userId : Nat) :
    Except ErrKind EngineState :=
  if ¬ s.donation.donorId = userId ∧ ¬ s.donation.receiverId = some userId then
    .error .Forbidden
  else
    match s.progress with
    | none => .error .ValidationFailed
    | some progress =>
      if ¬ progress.returnSignaledByReceiver then .error .ValidationFailed
      else if s.donation.donorId = userId then
        finishReturn s { progress with returnConfirmedByDonor := true }
      else
        finishReturn s { progress with returnConfirmedByReceiver := true }

/-- `DonationService.updateDonation`: donor only, OPEN only; computes the
diff; an empty diff returns the stored donation untouched with no history
entry; otherwise the donation is updated and one history entry holding the
diff is appended. -/
def updateDonation (s : EngineState) (userId : Nat) (data : UpdateDonationData) :
    Except ErrKind EngineState :=
  if s.donation.donorId ≠ userId then .error .Forbidden
  else if s.donation.status ≠ .OPEN then .error .ValidationFailed
  else
    let changedFields := getObjectDifferences s.donation.flds data
    if changedFields = [] then .ok s
    else .ok { s with
      donation := { s.donation with flds := s.donation.flds.applyUpdate data },
      history := s.history ++ [changedFields] }

/-- One successful engine operation. -/
inductive Step : EngineState → EngineState → Prop where
  | applyFor (s s' : EngineState) (u : Nat)
      (h : applyForDonation s u = .ok s') : Step s s'
  | withdraw (s s' : EngineState) (u : Nat)
      (h : withdrawCandidacy s u = .ok s') : Step s s'
  | choose (s s' : EngineState) (r d : Nat)
      (h : chooseReceiver s r d = .ok s') : Step s s'
  | cancel (s s' : EngineState) (u : Nat)
      (h : cancelReceiving s u = .ok s') : Step s s'
  | progressUpd (s s' : EngineState) (u : Nat) (upd : ProgressUpdates)
      (h : updateProgress s u upd = .ok s') : Step s s'
  | signal (s s' : EngineState) (u : Nat) (reason : String)
      (h : signalReturn s u reason = .ok s') : Step s s'
  | confirm (s s' : EngineState) (u : Nat)
      (h : confirmReturn s u = .ok s') : Step s s'
  | donationUpd (s s' : EngineState) (u : Nat) (data : UpdateDonationData)
      (h : updateDonation s u data = .ok s') : Step s s'

/-- States reachable from donation creation through the engine's
operations. -/
inductive Reachable : EngineState → Prop where
  | init (donorId : Nat) (f : DonationFields) :
      Reachable (createDonation donorId f)
  | step (s s' : EngineState) (hr : Reachable s) (hs : Step s s') :
      Reachable s'

/-! ### A concrete run of the engine

Donor 0 creates a donation, user 1 applies and is chosen, both parties
confirm pickup and completion; in a second branch the receiver signals a
return after pickup. -/

def demoFields : DonationFields :=
  ⟨"t", "d", "AT_LOCATION", "FOOD", "11111-111", "r", "1", "b", "c", "SP"⟩

def demoInit : EngineState := createDonation 0 demoFields

def demoApplied : EngineState := { demoInit with candidacies := [1] }

def demoChosen : EngineState :=
  { demoApplied with
    donation := demoApplied.donation.setReceiver 1
    progress := some {}
    candidacies := [] }

def demoPickupDonor : EngineState :=
  { demoChosen with progress := some { pickupConfirmedByDonor := true } }

def demoPickedUp : EngineState :=
  { demoChosen with
    donation := { demoChosen.donation with status := .PICKED_UP }
    progress := some { pickupConfirmedByDonor := true, pickupConfirmedByReceiver := true } }

def demoComplDonor : EngineState :=
  { demoPickedUp with
    progress := some { pickupConfirmedByDonor := true, pickupConfirmedByReceiver := true, completionConfirmedByDonor := true } }

def demoCompleted : EngineState :=
  { demoPickedUp with
    donation := { demoPickedUp.donation with status := .COMPLETED }
    progress := some { pickupConfirmedByDonor := true, pickupConfirmedByReceiver := true, completionConfirmedByDonor := true, completionConfirmedByReceiver := true } }

def demoSignaled : EngineState :=
  { demoPickedUp with
    donation := { demoPickedUp.donation with returnReason := some "x" }
    progress := some { pickupConfirmedByDonor := true, pickupConfirmedByReceiver := true, returnSignaledByReceiver := true } }

def demoReturnDonor : EngineState :=
  { demoSignaled with
    progress := some { pickupConfirmedByDonor := true, pickupConfirmedByReceiver := true, returnSignaledByReceiver := true, returnConfirmedByDonor := true } }

theorem reachable_demoApplied : Reachable demoApplied :=
  Reachable.step _ _ (Reachable.init 0 demoFields)
    (Step.applyFor _ _ 1 (by decide))

theorem reachable_demoChosen : Reachable demoChosen :=
  Reachable.step _ _ reachable_demoApplied
    (Step.choose _ _ 1 0 (by decide))

theorem reachable_demoPickedUp : Reachable demoPickedUp :=
  Reachable.step demoPickupDonor demoPickedUp
    (Reachable.step demoChosen demoPickupDonor reachable_demoChosen
      (Step.progressUpd _ _ 0 { pickupConfirmedByDonor := some true } (by decide)))
    (Step.progressUpd _ _ 1 { pickupConfirmedByReceiver := some true } (by decide))

theorem reachable_demoCompleted : Reachable demoCompleted :=
  Reachable.step demoComplDonor demoCompleted
    (Reachable.step demoPickedUp demoComplDonor reachable_demoPickedUp
      (Step.progressUpd _ _ 0 { completionConfirmedByDonor := some true } (by decide)))
    (Step.progressUpd _ _ 1 { completionConfirmedByReceiver := some true } (by decide))

theorem reachable_demoSignaled : Reachable demoSignaled :=
  Reachable.step _ _ reachable_demoPickedUp
    (Step.signal _ _ 1 "x" (by decide))

theorem reachable_demoReturnDonor : Reachable demoReturnDonor :=
  Reachable.step _ _ reachable_demoSignaled
    (Step.confirm _ _ 0 (by decide))

/-! ### Inversion lemmas: what a successful call tells us -/

/-- The status after `updateProgress`'s two sequential auto-transition
writes (the COMPLETED write overwrites the PICKED_UP one). -/
def updatedStatus (st : Status) (p : Progress) : Status :=
  if p.completionConfirmedByDonor ∧ p.completionConfirmedByReceiver ∧ st ≠ .COMPLETED then .COMPLETED
  else if p.pickupConfirmedByDonor ∧ p.pickupConfirmedByReceiver ∧ st = .IN_PROGRESS then .PICKED_UP
  else st

theorem updatedStatus_ne_OPEN {st : Status} (p : Progress) (h : st ≠ .OPEN) :
    updatedStatus st p ≠ .OPEN := by
  unfold updatedStatus
  split
  · simp
  · split
    · simp
    · exact h

theorem applyForDonation_ok {s s' : EngineState} {u : Nat}
    (h : applyForDonation s u = .ok s') :
    s.donation.donorId ≠ u ∧ s.donation.status = .OPEN ∧ u ∉ s.candidacies ∧
      s' = { s with candidacies := s.candidacies ++ [u] } := by
  unfold applyForDonation at h
  split at h
  · cases h
  · split at h
    · cases h
    · split at h
      · cases h
      · cases h
        simp_all

theorem withdrawCandidacy_ok {s s' : EngineState} {u : Nat}
    (h : withdrawCandidacy s u = .ok s') :
    u ∈ s.candidacies ∧ s.donation.status = .OPEN ∧
      s' = { s with candidacies := s.candidacies.erase u } := by
  unfold withdrawCandidacy at h
  split at h
  · cases h
  · split at h
    · cases h
      simp_all
    · cases h

theorem chooseReceiver_ok {s s' : EngineState} {r d : Nat}
    (h : chooseReceiver s r d = .ok s') :
    s.donation.donorId = d ∧ s.donation.status = .OPEN ∧ r ∈ s.candidacies ∧
      s' = { s with donation := s.donation.setReceiver r, progress := some {}, candidacies := [] } := by
  unfold chooseReceiver at h
  split at h
  · cases h
  · split at h
    · cases h
    · split at h
      · cases h
      · cases h
        simp_all

theorem cancelReceiving_ok {s s' : EngineState} {u : Nat}
    (h : cancelReceiving s u = .ok s') :
    s.donation.receiverId = some u ∧ s.donation.status = .IN_PROGRESS ∧
      s' = { s with donation := s.donation.removeReceiver, progress := none } := by
  unfold cancelReceiving at h
  split at h
  · cases h
  · split at h
    · cases h
    · cases h
      simp_all

theorem updateProgress_ok {s s' : EngineState} {u : Nat} {upd : ProgressUpdates}
    (h : updateProgress s u upd = .ok s') :
    ∃ rid p, s.donation.receiverId = some rid ∧ s.progress = some p ∧
      ((upd.completionConfirmedByDonor.getD false ||
        upd.completionConfirmedByReceiver.getD false) = true →
        ((upd.pickupConfirmedByDonor.getD p.pickupConfirmedByDonor) &&
         (upd.pickupConfirmedByReceiver.getD p.pickupConfirmedByReceiver)) = true) ∧
      s' = { s with
        donation := { s.donation with status := updatedStatus s.donation.status (p.applyUpdates upd) }
        progress := some (p.applyUpdates upd) } := by
  unfold updateProgress at h
  split at h
  · cases h
  next rid hrid =>
    split at h
    · cases h
    next p hp =>
      split at h
      · cases h
      · split at h
        · cases h
        · split at h
          · cases h
          · dsimp only at h
            split at h
            · cases h
            next hguard =>
              split at h
              · cases h
              · cases h
                refine ⟨rid, p, hrid, hp, ?_, rfl⟩
                intro hcompl
                by_contra hpick
                simp [hcompl, hpick] at hguard

theorem signalReturn_ok {s s' : EngineState} {u : Nat} {reason : String}
    (h : signalReturn s u reason = .ok s') :
    ∃ p, s.donation.receiverId = some u ∧ s.progress = some p ∧
      p.pickupConfirmedByDonor = true ∧ p.pickupConfirmedByReceiver = true ∧
      s' = { s with progress := some { p with returnSignaledByReceiver := true }, donation := { s.donation with returnReason := some reason } } := by
  unfold signalReturn at h
  split at h
  · cases h
  next hrecv =>
    split at h
    · cases h
    next p hp =>
      split at h
      · cases h
      next hpick =>
        cases h
        simp only [not_and, not_not] at hrecv
        refine ⟨p, ?_, hp, ?_, ?_, rfl⟩ <;> simp_all

theorem confirmReturn_ok {s s' : EngineState} {u : Nat}
    (h : confirmReturn s u = .ok s') :
    ∃ p, s.progress = some p ∧ p.returnSignaledByReceiver = true ∧
      (s.donation.donorId = u ∨ s.donation.receiverId = some u) ∧
      ((s' = { s with donation := s.donation.removeReceiver, progress := none }) ∨
        (∃ p', s' = { s with progress := some p' })) := by
  unfold confirmReturn at h
  split at h
  · cases h
  next hrole =>
    split at h
    · cases h
    next p hp =>
      split at h
      · cases h
      next hsig =>
        simp only [not_and, Decidable.not_not] at hrole
        split at h
        next hdon =>
          unfold finishReturn at h
          split at h
          · cases h
            exact ⟨p, hp, by simp_all, Or.inl hdon, Or.inl rfl⟩
          · cases h
            exact ⟨p, hp, by simp_all, Or.inl hdon, Or.inr ⟨_, rfl⟩⟩
        next hdon =>
          unfold finishReturn at h
          split at h
          · cases h
            exact ⟨p, hp, by simp_all, Or.inr (hrole hdon), Or.inl rfl⟩
          · cases h
            exact ⟨p, hp, by simp_all, Or.inr (hrole hdon), Or.inr ⟨_, rfl⟩⟩

theorem updateDonation_ok {s s' : EngineState} {u : Nat} {data : UpdateDonationData}
    (h : updateDonation s u data = .ok s') :
    s.donation.donorId = u ∧ s.donation.status = .OPEN ∧
      ((getObjectDifferences s.donation.flds data = [] ∧ s' = s) ∨
       (getObjectDifferences s.donation.flds data ≠ [] ∧
        s' = { s with donation := { s.donation with flds := s.donation.flds.applyUpdate data }, history := s.history ++ [getObjectDifferences s.donation.flds data] })) := by
  unfold updateDonation at h
  split at h
  · cases h
  · split at h
    · cases h
    · dsimp only at h
      split at h
      · cases h
        simp_all
      · cases h
        simp_all

/-! ### The receiver/status invariant -/

/-- The part of the spec's donation invariant the code maintains: the
receiver is cleared exactly while the status is OPEN. -/
def StatusInv (s : EngineState) : Prop :=
  s.donation.receiverId = none ↔ s.donation.status = Status.OPEN

theorem statusInv_init (d : Nat) (f : DonationFields) :
    StatusInv (createDonation d f) := by
  constructor <;> intro <;> rfl

theorem statusInv_step {s s' : EngineState} (hi : StatusInv s) (hs : Step s s') :
    StatusInv s' := by
  cases hs with
  | applyFor u h =>
    obtain ⟨-, -, -, rfl⟩ := applyForDonation_ok h
    exact hi
  | withdraw u h =>
    obtain ⟨-, -, rfl⟩ := withdrawCandidacy_ok h
    exact hi
  | choose r d h =>
    obtain ⟨-, -, -, rfl⟩ := chooseReceiver_ok h
    simp [StatusInv, Donation.setReceiver]
  | cancel u h =>
    obtain ⟨-, -, rfl⟩ := cancelReceiving_ok h
    simp [StatusInv, Donation.removeReceiver]
  | progressUpd u upd h =>
    obtain ⟨rid, p, hrid, hp, -, rfl⟩ := updateProgress_ok h
    have hne : s.donation.status ≠ .OPEN := by
      intro hopen
      have hnone := hi.mpr hopen
      rw [hnone] at hrid
      cases hrid
    constructor
    · intro hc
      simp only [hrid] at hc
      cases hc
    · intro hst
      exact absurd hst (updatedStatus_ne_OPEN _ hne)
  | signal u reason h =>
    obtain ⟨p, -, -, -, -, rfl⟩ := signalReturn_ok h
    exact hi
  | confirm u h =>
    obtain ⟨p, -, -, -, hcase⟩ := confirmReturn_ok h
    rcases hcase with rfl | ⟨p', rfl⟩
    · simp [StatusInv, Donation.removeReceiver]
    · exact hi
  | donationUpd u data h =>
    obtain ⟨-, -, hcase⟩ := updateDonation_ok h
    rcases hcase with ⟨-, rfl⟩ | ⟨-, rfl⟩
    · exact hi
    · exact hi

theorem reachable_statusInv {s : EngineState} (h : Reachable s) : StatusInv s := by
  induction h with
  | init d f => exact statusInv_init d f
  | step s s' hr hs ih => exact statusInv_step ih hs

/-! ### Claims -/

/-- C1, counterexample: running the engine's own operations to a completed
donation (create, apply, choose the receiver, both parties confirm pickup,
both parties confirm completion) yields a reachable state whose status is
COMPLETED while the receiver reference is still set to the chosen user:
the auto-transition to COMPLETED in `updateProgress` calls only
`updateStatus` and never clears `receiverId`, so "COMPLETED ⇒ receiver is
null" is false. -/
theorem completed_keeps_receiver_cex :
    Reachable demoCompleted ∧ demoCompleted.donation.status = .COMPLETED ∧
      demoCompleted.donation.receiverId = some 1 :=
  ⟨reachable_demoCompleted, by decide, by decide⟩

/-- C1 (amended): for every donation reachable through the engine's
operations, the receiver reference is non-null if and only if the status is
IN_PROGRESS, PICKED_UP or COMPLETED (equivalently: the receiver is null
exactly while the status is OPEN).  A COMPLETED donation keeps its
receiver. -/
theorem receiver_iff_not_open {s : EngineState} (h : Reachable s) :
    s.donation.receiverId ≠ none ↔
      (s.donation.status = .IN_PROGRESS ∨ s.donation.status = .PICKED_UP ∨
       s.donation.status = .COMPLETED) := by
  have hi := reachable_statusInv h
  unfold StatusInv at hi
  cases hst : s.donation.status <;> simp_all

/-- Witness instantiating C1's amended theorem at the freshly created
donation: no receiver, status OPEN. -/
theorem receiver_iff_not_open_witness :
    (createDonation 0 demoFields).donation.receiverId ≠ none ↔
      ((createDonation 0 demoFields).donation.status = .IN_PROGRESS ∨
       (createDonation 0 demoFields).donation.status = .PICKED_UP ∨
       (createDonation 0 demoFields).donation.status = .COMPLETED) :=
  receiver_iff_not_open (Reachable.init 0 demoFields)

/-- C2: on an OPEN donation, `chooseReceiver` called by the donor with a
candidate that has an active Candidacy succeeds; afterwards the status is
IN_PROGRESS, the receiver is the chosen candidate, an all-false Progress
record exists, and the donation has zero Candidacies (the donor's listing
is empty, the winner's own Candidacy included).  A non-donor caller gets
Forbidden; a donor caller on a non-OPEN donation, or naming a user without
a Candidacy, gets ValidationFailed.  (A failure returns `.error`, so no
state is written.) -/
theorem chooseReceiver_spec (s : EngineState) (r d : Nat) :
    (s.donation.donorId ≠ d → chooseReceiver s r d = .error .Forbidden) ∧
    (s.donation.donorId = d → s.donation.status ≠ .OPEN →
      chooseReceiver s r d = .error .ValidationFailed) ∧
    (s.donation.donorId = d → s.donation.status = .OPEN → r ∉ s.candidacies →
      chooseReceiver s r d = .error .ValidationFailed) ∧
    (s.donation.donorId = d → s.donation.status = .OPEN → r ∈ s.candidacies →
      ∃ s', chooseReceiver s r d = .ok s' ∧
        s'.donation.status = .IN_PROGRESS ∧ s'.donation.receiverId = some r ∧
        s'.progress = some ⟨false, false, false, false, false, false, false⟩ ∧
        s'.candidacies = [] ∧ getDonationCandidates s' d = .ok []) := by
  refine ⟨?_, ?_, ?_, ?_⟩
  · intro hd
    unfold chooseReceiver
    rw [if_pos hd]
  · intro hd hst
    unfold chooseReceiver
    rw [if_neg (not_not_intro hd), if_pos hst]
  · intro hd hst hr
    unfold chooseReceiver
    rw [if_neg (not_not_intro hd), if_neg (not_not_intro hst), if_pos hr]
  · intro hd hst hr
    unfold chooseReceiver
    rw [if_neg (not_not_intro hd), if_neg (not_not_intro hst),
        if_neg (not_not_intro hr)]
    refine ⟨_, rfl, rfl, rfl, rfl, rfl, ?_⟩
    unfold getDonationCandidates
    rw [if_neg (not_not_intro ?_)]
    exact hd

/-- Witness for C2 on the concrete run: donor 0 chooses candidate 1. -/
theorem chooseReceiver_spec_witness :
    ∃ s', chooseReceiver demoApplied 1 0 = .ok s' ∧
      s'.donation.status = .IN_PROGRESS ∧ s'.donation.receiverId = some 1 ∧
      s'.progress = some ⟨false, false, false, false, false, false, false⟩ ∧
      s'.candidacies = [] ∧ getDonationCandidates s' 0 = .ok [] :=
  (chooseReceiver_spec demoApplied 1 0).2.2.2 rfl rfl (by decide)

/-- C3: with a receiver and a Progress record present, an `updateProgress`
request in which the actor includes a flag of the other party's half
(defined at all, even as `false`) fails with Forbidden; the `.error` result
means nothing is written, not even the actor's own flags in the same
request. -/
theorem updateProgress_other_half_forbidden (s : EngineState) (u rid : Nat)
    (p : Progress) (upd : ProgressUpdates)
    (hrecv : s.donation.receiverId = some rid) (hp : s.progress = some p) :
    (s.donation.donorId = u →
      (upd.pickupConfirmedByReceiver.isSome ∨
       upd.completionConfirmedByReceiver.isSome ∨
       upd.returnConfirmedByReceiver.isSome) →
      updateProgress s u upd = .error .Forbidden) ∧
    (s.donation.donorId ≠ u → rid = u →
      (upd.pickupConfirmedByDonor.isSome ∨
       upd.completionConfirmedByDonor.isSome ∨
       upd.returnConfirmedByDonor.isSome) →
      updateProgress s u upd = .error .Forbidden) := by
  constructor
  · intro hd hflag
    unfold updateProgress
    rw [hrecv, hp]
    dsimp only
    rw [if_neg (fun hc => hc.1 hd), if_pos ⟨hd, hflag⟩]
  · intro hd hu hflag
    unfold updateProgress
    rw [hrecv, hp]
    dsimp only
    rw [if_neg (fun hc => hc.2 hu), if_neg (fun hc => hd hc.1),
        if_pos ⟨hu, hflag⟩]

/-- Witness for C3: the donor of the concrete IN_PROGRESS donation requests
the receiver's pickup flag and is rejected with Forbidden. -/
theorem updateProgress_other_half_forbidden_witness :
    updateProgress demoChosen 0 { pickupConfirmedByReceiver := some true } =
      .error .Forbidden :=
  (updateProgress_other_half_forbidden demoChosen 0 1
    ⟨false, false, false, false, false, false, false⟩
    { pickupConfirmedByReceiver := some true } rfl rfl).1 rfl (by decide)

/-- C4: a completion-confirmation flag can only flip from false to true in
an `updateProgress` call whose resulting record has both pickup flags true;
in particular, requesting `completionConfirmedByDonor := true` on the fresh
all-false Progress record of the concrete IN_PROGRESS donation fails with
ValidationFailed (and, being an `.error`, writes nothing). -/
theorem completion_needs_pickup :
    (∀ (s s' : EngineState) (u : Nat) (upd : ProgressUpdates) (p p' : Progress),
      updateProgress s u upd = .ok s' → s.progress = some p →
      s'.progress = some p' →
      ((p.completionConfirmedByDonor = false ∧ p'.completionConfirmedByDonor = true) ∨
       (p.completionConfirmedByReceiver = false ∧ p'.completionConfirmedByReceiver = true)) →
      (p'.pickupConfirmedByDonor = true ∧ p'.pickupConfirmedByReceiver = true)) ∧
    updateProgress demoChosen 0 { completionConfirmedByDonor := some true } =
      .error .ValidationFailed := by
  constructor
  · intro s s' u upd p p' h hp hp' hbecame
    obtain ⟨rid, q, hrid, hq, hguard, rfl⟩ := updateProgress_ok h
    rw [hp] at hq
    injection hq with hq
    subst hq
    change some (p.applyUpdates upd) = some p' at hp'
    injection hp' with hp'
    subst hp'
    have hc : (upd.completionConfirmedByDonor.getD false ||
        upd.completionConfirmedByReceiver.getD false) = true := by
      rcases hbecame with ⟨hold, hnew⟩ | ⟨hold, hnew⟩
      · change upd.completionConfirmedByDonor.getD p.completionConfirmedByDonor = true at hnew
        cases hccd : upd.completionConfirmedByDonor with
        | none => rw [hccd] at hnew; simp_all
        | some b => rw [hccd] at hnew; simp_all
      · change upd.completionConfirmedByReceiver.getD p.completionConfirmedByReceiver = true at hnew
        cases hccr : upd.completionConfirmedByReceiver with
        | none => rw [hccr] at hnew; simp_all
        | some b => rw [hccr] at hnew; simp_all
    have hpick := hguard hc
    rw [Bool.and_eq_true] at hpick
    exact hpick
  · decide

/-- Witness for C4's universal part: in the concrete run the donor's
completion flag becomes true only in the PICKED_UP state where both pickup
flags already hold. -/
theorem completion_needs_pickup_witness :
    (⟨true, true, true, false, false, false, false⟩ : Progress).pickupConfirmedByDonor = true ∧
    (⟨true, true, true, false, false, false, false⟩ : Progress).pickupConfirmedByReceiver = true :=
  completion_needs_pickup.1 demoPickedUp demoComplDonor 0
    { completionConfirmedByDonor := some true }
    ⟨true, true, false, false, false, false, false⟩
    ⟨true, true, true, false, false, false, false⟩
    (by decide) (by decide) (by decide) (Or.inl ⟨rfl, rfl⟩)

/-- Success case of `applyForDonation`, shared helper. -/
theorem applyForDonation_succeeds {s : EngineState} {u : Nat}
    (hd : s.donation.donorId ≠ u) (hst : s.donation.status = .OPEN)
    (hm : u ∉ s.candidacies) :
    applyForDonation s u = .ok { s with candidacies := s.candidacies ++ [u] } := by
  unfold applyForDonation
  rw [if_neg hd, if_neg (not_not_intro hst), if_neg hm]

/-- C5, counterexample: in the reachable IN_PROGRESS state with a fresh
all-false Progress record (`returnSignaledByReceiver = false`), the donor's
`updateProgress` request for `returnConfirmedByDonor := true` SUCCEEDS and
stores the flag: `updateProgress` never consults the return-signal flag, so
a return-confirmed flag can become true while the return has not been
signaled. -/
theorem return_confirm_without_signal_cex :
    Reachable demoChosen ∧
    demoChosen.progress = some ⟨false, false, false, false, false, false, false⟩ ∧
    updateProgress demoChosen 0 { returnConfirmedByDonor := some true } =
      .ok { demoChosen with progress := some ⟨false, false, false, false, false, true, false⟩ } :=
  ⟨reachable_demoChosen, by decide, by decide⟩

/-- C5 (amended): only the `confirmReturn` path is guarded by the signal: a
successful `confirmReturn` requires the stored Progress record to have
`returnSignaledByReceiver = true` before the call.  `updateProgress`,
however, accepts the return-confirmed flags without that guard (see the
counterexample), so the invariant does not hold engine-wide. -/
theorem confirmReturn_needs_signal (s s' : EngineState) (u : Nat) (p : Progress)
    (hp : s.progress = some p) (h : confirmReturn s u = .ok s') :
    p.returnSignaledByReceiver = true := by
  obtain ⟨q, hq, hsig, -, -⟩ := confirmReturn_ok h
  rw [hp] at hq
  injection hq with hq
  rw [hq]
  exact hsig

/-- Witness for C5's amended theorem: the donor's confirmation in the
concrete signaled state. -/
theorem confirmReturn_needs_signal_witness :
    (⟨true, true, false, false, true, false, false⟩ : Progress).returnSignaledByReceiver = true :=
  confirmReturn_needs_signal demoSignaled demoReturnDonor 0
    ⟨true, true, false, false, true, false, false⟩ (by decide) (by decide)

/-- C6, counterexample: in the reachable state where user 1 already has a
Candidacy on donor 0's OPEN donation, a second `applyForDonation` by user 1
fails with ValidationFailed ("Você já se candidatou para esta doação"), not
with the Conflict kind (`ConflictError` is never thrown by the donation
service). -/
theorem apply_duplicate_not_conflict_cex :
    Reachable demoApplied ∧ demoApplied.candidacies = [1] ∧
    demoApplied.donation.donorId = 0 ∧ demoApplied.donation.status = .OPEN ∧
    applyForDonation demoApplied 1 = .error .ValidationFailed ∧
    ¬ applyForDonation demoApplied 1 = .error .Conflict :=
  ⟨reachable_demoApplied, by decide, by decide, by decide, by decide, by decide⟩

/-- C6 (amended): `applyForDonation` fails with ValidationFailed — not
Conflict — when a Candidacy already exists for the pair, with
ValidationFailed when the applicant is the donor or the status is not OPEN
(the donor check runs first, then the status check, then the duplicate
check), and succeeds by appending the Candidacy otherwise.  A failure
returns `.error`, so no Candidacy is created. -/
theorem applyForDonation_spec (s : EngineState) (u : Nat) :
    (s.donation.donorId = u → applyForDonation s u = .error .ValidationFailed) ∧
    (s.donation.donorId ≠ u → s.donation.status ≠ .OPEN →
      applyForDonation s u = .error .ValidationFailed) ∧
    (s.donation.donorId ≠ u → s.donation.status = .OPEN → u ∈ s.candidacies →
      applyForDonation s u = .error .ValidationFailed) ∧
    (s.donation.donorId ≠ u → s.donation.status = .OPEN → u ∉ s.candidacies →
      applyForDonation s u = .ok { s with candidacies := s.candidacies ++ [u] }) := by
  refine ⟨?_, ?_, ?_, fun hd hst hm => applyForDonation_succeeds hd hst hm⟩
  · intro hd
    unfold applyForDonation
    rw [if_pos hd]
  · intro hd hst
    unfold applyForDonation
    rw [if_neg hd, if_pos hst]
  · intro hd hst hm
    unfold applyForDonation
    rw [if_neg hd, if_neg (not_not_intro hst), if_pos hm]

/-- Witness for C6's amended theorem: user 1's first application on the
fresh donation succeeds. -/
theorem applyForDonation_spec_witness :
    applyForDonation demoInit 1 =
      .ok { demoInit with candidacies := demoInit.candidacies ++ [1] } :=
  (applyForDonation_spec demoInit 1).2.2.2 (by decide) rfl (by decide)

/-- C7: from PICKED_UP with the return signaled and neither party yet
confirmed, after the donor and then the receiver call `confirmReturn`, the
status is OPEN, the receiver is null, the return reason is null, the
Progress record is gone, the candidacies are untouched, and a fresh
`applyForDonation` by any non-donor user without an existing Candidacy
succeeds. -/
theorem return_roundtrip (s : EngineState) (d r w : Nat) (p : Progress)
    (hdon : s.donation.donorId = d) (hrecv : s.donation.receiverId = some r)
    (_hst : s.donation.status = .PICKED_UP) (hdr : d ≠ r)
    (hp : s.progress = some p) (hsig : p.returnSignaledByReceiver = true)
    (_hcd : p.returnConfirmedByDonor = false)
    (hcr : p.returnConfirmedByReceiver = false) :
    ∃ s1 s2, confirmReturn s d = .ok s1 ∧ confirmReturn s1 r = .ok s2 ∧
      s2.donation.status = .OPEN ∧ s2.donation.receiverId = none ∧
      s2.donation.returnReason = none ∧ s2.progress = none ∧
      s2.candidacies = s.candidacies ∧
      (w ≠ d → w ∉ s.candidacies →
        applyForDonation s2 w = .ok { s2 with candidacies := s2.candidacies ++ [w] }) := by
  have h1 : confirmReturn s d =
      .ok { s with progress := some { p with returnConfirmedByDonor := true } } := by
    unfold confirmReturn
    rw [hp]
    dsimp only
    rw [if_neg (fun hc => hc.1 hdon), if_neg (not_not_intro hsig), if_pos hdon]
    unfold finishReturn
    rw [if_neg (fun hc => Bool.false_ne_true (hcr ▸ hc.2.2))]
  have h2 : confirmReturn { s with progress := some { p with returnConfirmedByDonor := true } } r =
      .ok { s with donation := s.donation.removeReceiver, progress := none } := by
    unfold confirmReturn
    dsimp only
    rw [if_neg (fun hc => hc.2 hrecv),
        if_neg (not_not_intro hsig),
        if_neg (fun hc => hdr (hdon.symm.trans hc))]
    unfold finishReturn
    rw [if_pos ⟨hsig, rfl, rfl⟩]
  refine ⟨_, _, h1, h2, rfl, rfl, rfl, rfl, rfl, ?_⟩
  intro hw hmem
  exact applyForDonation_succeeds
    (fun hc => hw ((hdon ▸ hc : d = w).symm)) rfl hmem

/-- Witness for C7 on the concrete run: donor 0 and receiver 1 confirm the
signaled return; user 2 can then apply. -/
theorem return_roundtrip_witness :
    ∃ s1 s2, confirmReturn demoSignaled 0 = .ok s1 ∧ confirmReturn s1 1 = .ok s2 ∧
      s2.donation.status = .OPEN ∧ s2.donation.receiverId = none ∧
      s2.donation.returnReason = none ∧ s2.progress = none ∧
      s2.candidacies = demoSignaled.candidacies ∧
      (2 ≠ 0 → 2 ∉ demoSignaled.candidacies →
        applyForDonation s2 2 = .ok { s2 with candidacies := s2.candidacies ++ [2] }) :=
  return_roundtrip demoSignaled 0 1 2 ⟨true, true, false, false, true, false, false⟩
    rfl rfl rfl (by decide) (by decide) rfl rfl rfl

/-- Every field is in the iterated key list. -/
theorem Field.mem_all (k : Field) : k ∈ Field.all := by
  cases k <;> decide

/-- C8: the diff computed by `getObjectDifferences` contains exactly the
keys present (defined) in the partial whose value differs from the old
record, with the correct old and new values; under the donor/OPEN guards of
`updateDonation`, an empty diff returns the stored donation unchanged with
no history entry, and a singleton diff appends exactly one history entry
recording that field's old and new values. -/
theorem diff_spec :
    (∀ (oldObj : DonationFields) (newObj : UpdateDonationData) (k : Field) (ov nv : String),
      (k, ov, nv) ∈ getObjectDifferences oldObj newObj ↔
        (newObj.get k = some nv ∧ oldObj.get k = ov ∧ ¬ ov = nv)) ∧
    (∀ (s : EngineState) (u : Nat) (data : UpdateDonationData),
      s.donation.donorId = u → s.donation.status = .OPEN →
      getObjectDifferences s.donation.flds data = [] →
      updateDonation s u data = .ok s) ∧
    (∀ (s : EngineState) (u : Nat) (data : UpdateDonationData) (k : Field) (ov nv : String),
      s.donation.donorId = u → s.donation.status = .OPEN →
      getObjectDifferences s.donation.flds data = [(k, ov, nv)] →
      updateDonation s u data =
        .ok { s with
          donation := { s.donation with flds := s.donation.flds.applyUpdate data }
          history := s.history ++ [[(k, ov, nv)]] }) := by
  refine ⟨?_, ?_, ?_⟩
  · intro oldObj newObj k ov nv
    unfold getObjectDifferences
    rw [List.mem_filterMap]
    constructor
    · rintro ⟨a, -, hfa⟩
      cases hga : newObj.get a with
      | none => rw [hga] at hfa; cases hfa
      | some v =>
        rw [hga] at hfa
        dsimp only at hfa
        by_cases hne : oldObj.get a ≠ v
        · rw [if_pos hne] at hfa
          injection hfa with hfa
          injection hfa with h1 h23
          injection h23 with h2 h3
          subst h1
          subst h2
          subst h3
          exact ⟨hga, rfl, hne⟩
        · rw [if_neg hne] at hfa
          cases hfa
    · rintro ⟨hnew, hold, hne⟩
      refine ⟨k, Field.mem_all k, ?_⟩
      rw [hnew]
      dsimp only
      rw [if_pos (fun hc => hne (hold.symm.trans hc)), hold]
  · intro s u data hd hst hdiff
    unfold updateDonation
    rw [if_neg (not_not_intro hd), if_neg (not_not_intro hst)]
    dsimp only
    rw [if_pos hdiff]
  · intro s u data k ov nv hd hst hdiff
    unfold updateDonation
    rw [if_neg (not_not_intro hd), if_neg (not_not_intro hst)]
    dsimp only
    rw [if_neg (by rw [hdiff]; exact fun hc => List.cons_ne_nil _ _ hc), hdiff]

/-- Witness for C8: a no-op update returns the stored donation with no
history entry, and a title change appends exactly one entry with the old
and new title. -/
theorem diff_spec_witness :
    ((Field.title, "t", "u") ∈
        getObjectDifferences demoFields { title := some "u" } ↔
      (UpdateDonationData.get { title := some "u" } Field.title = some "u" ∧
       demoFields.get Field.title = "t" ∧ ¬ "t" = "u")) ∧
    updateDonation demoInit 0 {} = .ok demoInit ∧
    updateDonation demoInit 0 { title := some "u" } =
      .ok { demoInit with
        donation := { demoInit.donation with flds := demoInit.donation.flds.applyUpdate { title := some "u" } }
        history := demoInit.history ++ [[(Field.title, "t", "u")]] } :=
  ⟨diff_spec.1 demoFields { title := some "u" } Field.title "t" "u",
   diff_spec.2.1 demoInit 0 {} rfl rfl (by decide),
   diff_spec.2.2 demoInit 0 { title := some "u" } Field.title "t" "u" rfl rfl
     (by decide)⟩

/-- C9: per-party idempotence of `confirmReturn`: when a call by user u has
succeeded and the Progress record still exists afterwards (the counterpart
has not yet confirmed, so the return did not complete), repeating the call
as the same user succeeds and returns exactly the same state — the same
confirmation flag is overwritten with `true` and the completion check fails
again. -/
theorem confirmReturn_idempotent (s s1 : EngineState) (u : Nat) (p1 : Progress)
    (h1 : confirmReturn s u = .ok s1) (hp1 : s1.progress = some p1) :
    confirmReturn s1 u = .ok s1 := by
  unfold confirmReturn at h1
  split at h1
  · cases h1
  next hrole =>
    split at h1
    · cases h1
    next p hp =>
      split at h1
      · cases h1
      next hsig =>
        split at h1
        next hdon =>
          unfold finishReturn at h1
          split at h1
          next hcomp =>
            cases h1
            exact absurd hp1 (by simp)
          next hcomp =>
            cases h1
            unfold confirmReturn
            dsimp only
            rw [if_neg hrole, if_neg hsig, if_pos hdon]
            unfold finishReturn
            rw [if_neg hcomp]
        next hdon =>
          unfold finishReturn at h1
          split at h1
          next hcomp =>
            cases h1
            exact absurd hp1 (by simp)
          next hcomp =>
            cases h1
            unfold confirmReturn
            dsimp only
            rw [if_neg hrole, if_neg hsig, if_neg hdon]
            unfold finishReturn
            rw [if_neg hcomp]

/-- Witness for C9: the donor repeats their confirmation in the concrete
signaled state and gets the identical state back. -/
theorem confirmReturn_idempotent_witness :
    confirmReturn demoReturnDonor 0 = .ok demoReturnDonor :=
  confirmReturn_idempotent demoSignaled demoReturnDonor 0
    ⟨true, true, false, false, true, true, false⟩ (by decide) (by decide)

/-- Whether the state's progress record has the return-signaled flag set. -/
def signaledB (s : EngineState) : Bool :=
  match s.progress with
  | some p => p.returnSignaledByReceiver
  | none => false

/-- C10: the update shape accepted by `updateProgress` (`ProgressUpdates`,
mirroring the source's literal type and `updateProgressSchema`) has no
`returnSignaledByReceiver` field, and no engine operation other than
`signalReturn` can raise the return-signaled flag; a successful
`signalReturn` implies the caller is the donation's receiver, both pickup
flags already held, and it stores the given reason on the donation while
setting the flag. -/
theorem only_signalReturn_signals :
    (∀ s s' u, applyForDonation s u = .ok s' → signaledB s' = signaledB s) ∧
    (∀ s s' u, withdrawCandidacy s u = .ok s' → signaledB s' = signaledB s) ∧
    (∀ s s' r d, chooseReceiver s r d = .ok s' → signaledB s' = false) ∧
    (∀ s s' u, cancelReceiving s u = .ok s' → signaledB s' = false) ∧
    (∀ s s' u upd, updateProgress s u upd = .ok s' → signaledB s' = signaledB s) ∧
    (∀ s s' u, confirmReturn s u = .ok s' → signaledB s = true) ∧
    (∀ s s' u data, updateDonation s u data = .ok s' → signaledB s' = signaledB s) ∧
    (∀ s s' u reason, signalReturn s u reason = .ok s' →
      s.donation.receiverId = some u ∧
      (∃ p, s.progress = some p ∧ p.pickupConfirmedByDonor = true ∧
        p.pickupConfirmedByReceiver = true) ∧
      s'.donation.returnReason = some reason ∧ signaledB s' = true) := by
  refine ⟨?_, ?_, ?_, ?_, ?_, ?_, ?_, ?_⟩
  · intro s s' u h
    obtain ⟨-, -, -, rfl⟩ := applyForDonation_ok h
    rfl
  · intro s s' u h
    obtain ⟨-, -, rfl⟩ := withdrawCandidacy_ok h
    rfl
  · intro s s' r d h
    obtain ⟨-, -, -, rfl⟩ := chooseReceiver_ok h
    rfl
  · intro s s' u h
    obtain ⟨-, -, rfl⟩ := cancelReceiving_ok h
    rfl
  · intro s s' u upd h
    obtain ⟨rid, p, hrid, hp, -, rfl⟩ := updateProgress_ok h
    simp [signaledB, hp, Progress.applyUpdates]
  · intro s s' u h
    obtain ⟨p, hp, hsig, -, -⟩ := confirmReturn_ok h
    simp [signaledB, hp, hsig]
  · intro s s' u data h
    obtain ⟨-, -, hcase⟩ := updateDonation_ok h
    rcases hcase with ⟨-, rfl⟩ | ⟨-, rfl⟩ <;> rfl
  · intro s s' u reason h
    obtain ⟨p, hrecv, hp, hpcd, hpcr, rfl⟩ := signalReturn_ok h
    exact ⟨hrecv, ⟨p, hp, hpcd, hpcr⟩, rfl, rfl⟩

/-- Witness for C10: the receiver signals a return in the concrete
PICKED_UP state with both pickup flags set; the reason is stored and the
flag raised. -/
theorem only_signalReturn_signals_witness :
    demoPickedUp.donation.receiverId = some 1 ∧
    (∃ p, demoPickedUp.progress = some p ∧ p.pickupConfirmedByDonor = true ∧
      p.pickupConfirmedByReceiver = true) ∧
    demoSignaled.donation.returnReason = some "x" ∧ signaledB demoSignaled = true :=
  only_signalReturn_signals.2.2.2.2.2.2.2 demoPickedUp demoSignaled 1 "x"
    (by decide)

end FilaSolidaria
